import Mathlib

/-
Verification of the deferred dispatcher builder and legion-migration bridge
of `src/game_data.rs`.

The data model is a shallow embedding of the Rust source.  Opaque payloads
(systems, system descriptors, bundles, syncer type parameters) are represented
by natural-number identifiers; all structural behaviour (the deferred operation
log, its replay during `build`, the bridge phases of the legion build, `update`
and `dispose`) is translated directly from the source.  Parts of the repository
that the source calls into but that are not under `src/` (the dispatcher
operation `exec` implementations, the ecs dispatcher itself, the legion
dispatcher builder and the entity-lifecycle channel) are modelled from the
spec; each such definition carries a doc comment saying so.
-/

set_option autoImplicit false

deriving instance DecidableEq for Except

namespace Amethyst

/-- Direction of a bridge synchronisation pass, mirroring
`legion::sync::SyncDirection` (`SpecsToLegion` is primary-to-secondary,
`LegionToSpecs` is secondary-to-primary). -/
inductive SyncDirection where
  | specsToLegion
  | legionToSpecs
deriving DecidableEq

/-- A registered syncer, mirroring the three syncer shapes pushed by the
migration builder methods: `ResourceSyncer::<T>`, `ComponentSyncer::<T>` and
`ComponentSyncerWith::<S, L, F>`.  Type parameters are opaque identifiers. -/
inductive Syncer where
  | resource (t : Nat)
  | component (t : Nat)
  | componentWith (t : Nat)
deriving DecidableEq

/-- A deferred dispatcher operation, mirroring the operations pushed onto
`GameDataBuilder::dispatcher_operations`: `AddSystem`, `AddSystemDesc`,
`AddThreadLocal`, `AddThreadLocalDesc`, `AddBarrier` and `AddBundle`.
System, descriptor and bundle payloads are opaque identifiers. -/
inductive DispatcherOperation where
  | addSystem (sys : Nat) (name : String) (dependencies : List String)
  | addSystemDesc (sysDesc : Nat) (name : String) (dependencies : List String)
  | addThreadLocal (sys : Nat)
  | addThreadLocalDesc (sysDesc : Nat)
  | addBarrier
  | addBundle (bundle : Nat)
deriving DecidableEq

/-- A parallel unit as recorded by the dispatcher builder: its payload, its
name (empty means unreferenceable), its declared dependencies and the barrier
generation it was registered in. -/
structure DUnit where
  sys : Nat
  name : String
  deps : List String
  gen : Nat
deriving DecidableEq

/-- Modelled from the spec: the ecs `DispatcherBuilder` (the `disp_builder`
field of `GameDataBuilder`; its implementation lives outside `src/`).  It
accumulates the parallel units in registration order, the thread-local units
in registration order, and the running barrier generation counter. -/
structure DispatcherBuilder where
  items : List DUnit
  threadLocals : List Nat
  gen : Nat
deriving DecidableEq

/-- The empty dispatcher builder (the `Default` value). -/
def DispatcherBuilder.empty : DispatcherBuilder :=
  { items := [], threadLocals := [], gen := 0 }

/-- Names of all parallel units currently recorded, in order. -/
def DispatcherBuilder.names (db : DispatcherBuilder) : List String :=
  db.items.map DUnit.name

/-- Compile-time failure taxonomy of the single `build` call. -/
inductive BuildErr where
  | duplicateName (n : String)
  | unknownDependency (n : String)
  | bundleFailed (code : Nat)
deriving DecidableEq

/-- A bundle environment: the opaque expansion logic of each registered
bundle, acting on the dispatcher builder and possibly failing. -/
abbrev Bundles := Nat → DispatcherBuilder → Except BuildErr DispatcherBuilder

/-- A sync-builder environment: the opaque `prepare` logic of each registered
`LegionSyncBuilder`, acting on the legion dispatcher builder. -/
structure LegionDispatcherBuilder where
  systems : List (Nat × Nat)
  threadLocals : List Nat
  bundles : List Nat
deriving DecidableEq

/-- The empty legion dispatcher builder (the `Default` value). -/
def LegionDispatcherBuilder.empty : LegionDispatcherBuilder :=
  { systems := [], threadLocals := [], bundles := [] }

abbrev PrepEnv := Nat → LegionDispatcherBuilder → LegionDispatcherBuilder

/-- The compiled legion (migration) dispatcher.  Modelled from the spec:
`LegionDispatcherBuilder::build` lives outside `src/`; it freezes the
accumulated registrations. -/
structure LegionDispatcher where
  systems : List (Nat × Nat)
  threadLocals : List Nat
  bundles : List Nat
deriving DecidableEq

/-- Modelled from the spec: building the legion dispatcher freezes the
builder's accumulated registrations. -/
def LegionDispatcherBuilder.buildDispatcher (b : LegionDispatcherBuilder) : LegionDispatcher :=
  { systems := b.systems, threadLocals := b.threadLocals, bundles := b.bundles }

/-- Modelled from the spec: the secondary world's entity-lifecycle channel;
each bound listener is recorded by its buffer capacity. -/
structure EntityChannel where
  listeners : List Nat
deriving DecidableEq

/-- Modelled from the spec: `entity_channel().bind_listener(capacity)` binds
one listener with the given bounded buffer capacity and returns its id. -/
def EntityChannel.bind_listener (c : EntityChannel) (cap : Nat) : Nat × EntityChannel :=
  (c.listeners.length, { listeners := c.listeners ++ [cap] })

/-- The secondary (legion) world; only its entity-lifecycle channel is
relevant to the claims. -/
structure LegionWorld where
  entity_channel : EntityChannel
deriving DecidableEq

/-- The migration state handed to the legion-ecs `build`: the secondary world
together with the accumulated syncers. -/
structure LegionState where
  world : LegionWorld
  syncers : List Syncer
deriving DecidableEq

/-- The primary (specs) world, opaque except for the thread-pool resource that
`build` reads from it. -/
structure SpecsWorld where
  pool : Nat
deriving DecidableEq

/-- The compiled primary dispatcher: parallel units plus the ordered
thread-local sequence. -/
structure Dispatcher where
  parallel : List DUnit
  threadLocals : List Nat
deriving DecidableEq

/-- Freezing the dispatcher builder into a dispatcher. -/
def DispatcherBuilder.toDispatcher (db : DispatcherBuilder) : Dispatcher :=
  { parallel := db.items, threadLocals := db.threadLocals }

/-- Observable events of the embedding: world accesses, replayed operations,
bridge phases and per-tick execution steps. -/
inductive Event where
  | readPoolResource
  | execLog (op : DispatcherOperation)
  | dispatcherSetup
  | legionTempSetup
  | syncBuilderPrepare (i : Nat)
  | syncerSetup (s : Syncer)
  | syncerSync (s : Syncer) (d : SyncDirection)
  | buildMigrationDispatcher
  | bindListener (cap : Nat)
  | dispatchPool (units : List DUnit)
  | poolWait
  | runLocal (sys : Nat)
  | disposeDispatcher
  | postDisposeUse
deriving DecidableEq

/-- Is this event the binding of an entity-lifecycle listener? -/
def Event.isBindListener : Event → Bool
  | .bindListener _ => true
  | _ => false

/-- First dependency entry that does not name a previously registered
non-empty unit, if any. -/
def badDep (db : DispatcherBuilder) (ds : List String) : Option String :=
  ds.find? (fun d => decide (d = "" ∨ d ∉ db.names))

/-- Modelled from the spec: registering one parallel unit on the dispatcher
builder.  It fails with `DuplicateName` if the name is non-empty and already
used, with `UnknownDependency` if some dependency does not name a previously
registered non-empty unit, and otherwise appends the unit in the current
barrier generation. -/
def addSystemCore (db : DispatcherBuilder) (sys : Nat) (name : String)
    (deps : List String) : Except BuildErr DispatcherBuilder :=
  if name ≠ "" ∧ name ∈ db.names then .error (.duplicateName name)
  else
    match badDep db deps with
    | some d => .error (.unknownDependency d)
    | none => .ok { db with items := db.items ++ [⟨sys, name, deps, db.gen⟩] }

/-- Modelled from the spec: `DispatcherOperation::exec` (the implementations
live in `core::deferred_dispatcher_operation`, outside `src/`).  Replaying one
logged operation against the dispatcher builder: unit registration validates
names and dependencies, thread-local registration appends to the sequential
list, a barrier advances the generation only when the current generation is
non-empty, and a bundle defers to its own expansion logic. -/
def execOp (env : Bundles) (op : DispatcherOperation) (db : DispatcherBuilder) :
    Except BuildErr DispatcherBuilder :=
  match op with
  | .addSystem sys n ds => addSystemCore db sys n ds
  | .addSystemDesc sysDesc n ds => addSystemCore db sysDesc n ds
  | .addThreadLocal sys => .ok { db with threadLocals := db.threadLocals ++ [sys] }
  | .addThreadLocalDesc sysDesc => .ok { db with threadLocals := db.threadLocals ++ [sysDesc] }
  | .addBarrier =>
      .ok (if db.items.any (fun u => u.gen == db.gen) then { db with gen := db.gen + 1 } else db)
  | .addBundle bid => env bid db

/-- Replaying the deferred operation log against the dispatcher builder, in
log order, stopping at the first failure (`build` panics there). -/
def replay (env : Bundles) : List DispatcherOperation → DispatcherBuilder →
    Except BuildErr DispatcherBuilder
  | [], db => .ok db
  | op :: rest, db =>
      match execOp env op db with
      | .error e => .error e
      | .ok db' => replay env rest db'

/-- The builder for default game data (`GameDataBuilder`); this is the
legion-ecs configuration of the struct, whose fields are a superset of the
plain configuration. -/
structure GameDataBuilder where
  dispatcher_operations : List DispatcherOperation
  disp_builder : DispatcherBuilder
  migration_dispatcher_builder : LegionDispatcherBuilder
  migration_sync_builders : List Nat
  migration_syncers : List Syncer
deriving DecidableEq

/-- The `Default` value of `GameDataBuilder`. -/
def GameDataBuilder.default : GameDataBuilder :=
  { dispatcher_operations := []
    disp_builder := DispatcherBuilder.empty
    migration_dispatcher_builder := LegionDispatcherBuilder.empty
    migration_sync_builders := []
    migration_syncers := [] }

/-- `GameDataBuilder::with`: logs an `AddSystem` operation; no validation
happens at call time. -/
def GameDataBuilder.with_ (b : GameDataBuilder) (sys : Nat) (name : String)
    (dependencies : List String) : GameDataBuilder :=
  { b with dispatcher_operations :=
      b.dispatcher_operations ++ [.addSystem sys name dependencies] }

/-- `GameDataBuilder::with_system_desc`: logs an `AddSystemDesc` operation. -/
def GameDataBuilder.with_system_desc (b : GameDataBuilder) (sysDesc : Nat) (name : String)
    (dependencies : List String) : GameDataBuilder :=
  { b with dispatcher_operations :=
      b.dispatcher_operations ++ [.addSystemDesc sysDesc name dependencies] }

/-- `GameDataBuilder::with_thread_local`: logs an `AddThreadLocal` operation. -/
def GameDataBuilder.with_thread_local (b : GameDataBuilder) (sys : Nat) : GameDataBuilder :=
  { b with dispatcher_operations := b.dispatcher_operations ++ [.addThreadLocal sys] }

/-- `GameDataBuilder::with_thread_local_desc`: logs an `AddThreadLocalDesc`
operation. -/
def GameDataBuilder.with_thread_local_desc (b : GameDataBuilder) (sysDesc : Nat) :
    GameDataBuilder :=
  { b with dispatcher_operations := b.dispatcher_operations ++ [.addThreadLocalDesc sysDesc] }

/-- `GameDataBuilder::with_barrier`: logs an `AddBarrier` operation. -/
def GameDataBuilder.with_barrier (b : GameDataBuilder) : GameDataBuilder :=
  { b with dispatcher_operations := b.dispatcher_operations ++ [.addBarrier] }

/-- `GameDataBuilder::with_bundle`: logs an `AddBundle` operation and returns
the builder wrapped in `Ok`; the bundle's own expansion logic runs only at
build time. -/
def GameDataBuilder.with_bundle (b : GameDataBuilder) (bundle : Nat) :
    Except BuildErr GameDataBuilder :=
  .ok { b with dispatcher_operations := b.dispatcher_operations ++ [.addBundle bundle] }

/-- `GameDataBuilder::migration_resource_sync`: pushes a resource syncer and
returns the builder. -/
def GameDataBuilder.migration_resource_sync (b : GameDataBuilder) (t : Nat) : GameDataBuilder :=
  { b with migration_syncers := b.migration_syncers ++ [.resource t] }

/-- `GameDataBuilder::migration_component_sync`: pushes a component syncer and
returns the builder. -/
def GameDataBuilder.migration_component_sync (b : GameDataBuilder) (t : Nat) : GameDataBuilder :=
  { b with migration_syncers := b.migration_syncers ++ [.component t] }

/-- `GameDataBuilder::migration_component_sync_with`: pushes a component
syncer with a custom merge function, then returns `()` — the updated builder
is dropped, the Rust signature has no return type. -/
def GameDataBuilder.migration_component_sync_with (b : GameDataBuilder) (f : Nat) : Unit :=
  let _self : GameDataBuilder :=
    { b with migration_syncers := b.migration_syncers ++ [.componentWith f] }
  ()

/-- `GameDataBuilder::migration_sync_bundle`: pushes a sync builder and
returns the builder. -/
def GameDataBuilder.migration_sync_bundle (b : GameDataBuilder) (syncer : Nat) :
    GameDataBuilder :=
  { b with migration_sync_builders := b.migration_sync_builders ++ [syncer] }

/-- `GameDataBuilder::migration_with_thread_local`: registers a thread-local
on the legion dispatcher builder and returns the builder. -/
def GameDataBuilder.migration_with_thread_local (b : GameDataBuilder) (desc : Nat) :
    GameDataBuilder :=
  { b with migration_dispatcher_builder :=
      { b.migration_dispatcher_builder with
          threadLocals := b.migration_dispatcher_builder.threadLocals ++ [desc] } }

/-- `GameDataBuilder::migration_with_system`: registers a staged system on the
legion dispatcher builder and returns the builder. -/
def GameDataBuilder.migration_with_system (b : GameDataBuilder) (stage : Nat) (desc : Nat) :
    GameDataBuilder :=
  { b with migration_dispatcher_builder :=
      { b.migration_dispatcher_builder with
          systems := b.migration_dispatcher_builder.systems ++ [(stage, desc)] } }

/-- `GameDataBuilder::migration_with_bundle`: registers a legion bundle on the
legion dispatcher builder and returns the builder. -/
def GameDataBuilder.migration_with_bundle (b : GameDataBuilder) (bundle : Nat) :
    GameDataBuilder :=
  { b with migration_dispatcher_builder :=
      { b.migration_dispatcher_builder with
          bundles := b.migration_dispatcher_builder.bundles ++ [bundle] } }

/-- Default game data (the plain configuration of `GameData`): the optional
compiled dispatcher, taken by `dispose`. -/
structure GameData where
  dispatcher : Option Dispatcher
deriving DecidableEq

/-- `GameData::new` (plain configuration). -/
def GameData.new (d : Dispatcher) : GameData :=
  { dispatcher := some d }

/-- Game data in the legion-ecs configuration: the primary dispatcher, the
migration dispatcher and the bound entity-lifecycle listener id. -/
structure GameDataMigration where
  dispatcher : Option Dispatcher
  migration_dispatcher : LegionDispatcher
  migration_sync_entities_id : Nat
deriving DecidableEq

/-- `GameData::new` (legion-ecs configuration). -/
def GameDataMigration.new (d : Dispatcher) (md : LegionDispatcher) (lid : Nat) :
    GameDataMigration :=
  { dispatcher := some d, migration_dispatcher := md, migration_sync_entities_id := lid }

/-- Modelled from the spec: dispatching the compiled dispatcher (the ecs
dispatcher's implementation lives outside `src/`): the parallel graph is
submitted to the worker pool, the pool is joined, then the thread-local
units run in registration order on the calling thread. -/
def Dispatcher.dispatch (d : Dispatcher) : List Event :=
  Event.dispatchPool d.parallel :: Event.poolWait :: d.threadLocals.map Event.runLocal

/-- `GameData::update` (plain configuration): dispatches if the dispatcher is
still held, and silently does nothing otherwise. -/
def GameData.update (g : GameData) : GameData × List Event :=
  match g.dispatcher with
  | some d => (g, d.dispatch)
  | none => (g, [])

/-- `GameData::dispose`: takes the dispatcher out of the handle and disposes
it; if it was already taken, does nothing. -/
def GameData.dispose (g : GameData) : GameData × List Event :=
  match g.dispatcher with
  | some _ => ({ dispatcher := none }, [Event.disposeDispatcher])
  | none => (g, [])

/-- `GameData::update` (legion-ecs configuration): the body is empty; nothing
happens. -/
def GameDataMigration.update (g : GameDataMigration) : GameDataMigration × List Event :=
  (g, [])

/-- `DataInit::build` for `GameDataBuilder` (plain configuration): reads the
thread-pool resource, replays the deferred operation log in order (aborting
with the first failure and returning no handle), then builds and sets up the
dispatcher. -/
def GameDataBuilder.build (b : GameDataBuilder) (env : Bundles) (_w : SpecsWorld) :
    Except BuildErr (GameData × List Event) :=
  match replay env b.dispatcher_operations b.disp_builder with
  | .error e => .error e
  | .ok db =>
      .ok (GameData.new db.toDispatcher,
        Event.readPoolResource :: b.dispatcher_operations.map Event.execLog
          ++ [Event.dispatcherSetup])

/-- `DataInit::build` for `GameDataBuilder` (legion-ecs configuration): reads
the thread-pool resource, replays the deferred operation log to compile the
primary dispatcher, prepares the secondary world (`legion::temp::setup`, then
each sync builder's `prepare`, then extending the state's syncers), runs each
syncer's `setup`, runs every syncer once with direction `SpecsToLegion`,
builds the migration dispatcher, runs every syncer once with direction
`LegionToSpecs`, and finally binds one listener of capacity 2048 on the
secondary world's entity channel and returns the combined handle. -/
def GameDataBuilder.build_migration (b : GameDataBuilder) (env : Bundles) (prep : PrepEnv)
    (_w : SpecsWorld) (ms : LegionState) :
    Except BuildErr (GameDataMigration × LegionState × List Event) :=
  match replay env b.dispatcher_operations b.disp_builder with
  | .error e => .error e
  | .ok db =>
      let mdb := b.migration_sync_builders.foldl (fun m i => prep i m)
        b.migration_dispatcher_builder
      let syncersAll := ms.syncers ++ b.migration_syncers
      let bound := ms.world.entity_channel.bind_listener 2048
      .ok (GameDataMigration.new db.toDispatcher mdb.buildDispatcher bound.1,
        { world := { entity_channel := bound.2 }, syncers := syncersAll },
        Event.readPoolResource :: b.dispatcher_operations.map Event.execLog
          ++ [Event.dispatcherSetup, Event.legionTempSetup]
          ++ b.migration_sync_builders.map Event.syncBuilderPrepare
          ++ syncersAll.map Event.syncerSetup
          ++ syncersAll.map (fun s => Event.syncerSync s SyncDirection.specsToLegion)
          ++ [Event.buildMigrationDispatcher]
          ++ syncersAll.map (fun s => Event.syncerSync s SyncDirection.legionToSpecs)
          ++ [Event.bindListener 2048])

/-- A builder API call of the deferred-log surface (the calls of claim C10). -/
inductive BuilderCall where
  | with_ (sys : Nat) (name : String) (deps : List String)
  | with_system_desc (sysDesc : Nat) (name : String) (deps : List String)
  | with_thread_local (sys : Nat)
  | with_thread_local_desc (sysDesc : Nat)
  | with_barrier
  | with_bundle (bundle : Nat)
deriving DecidableEq

/-- The single operation a builder call logs. -/
def opOfCall : BuilderCall → DispatcherOperation
  | .with_ s n ds => .addSystem s n ds
  | .with_system_desc s n ds => .addSystemDesc s n ds
  | .with_thread_local s => .addThreadLocal s
  | .with_thread_local_desc s => .addThreadLocalDesc s
  | .with_barrier => .addBarrier
  | .with_bundle bid => .addBundle bid

/-- Applying one builder call: the builder is transformed via the method
translated from the source, and the emitted world-effect trace is recorded
(registration methods never touch the world). -/
def applyCall (b : GameDataBuilder) : BuilderCall → GameDataBuilder × List Event
  | .with_ s n ds => (b.with_ s n ds, [])
  | .with_system_desc s n ds => (b.with_system_desc s n ds, [])
  | .with_thread_local s => (b.with_thread_local s, [])
  | .with_thread_local_desc s => (b.with_thread_local_desc s, [])
  | .with_barrier => (b.with_barrier, [])
  | .with_bundle bid =>
      (match b.with_bundle bid with
       | .ok b' => b'
       | .error _ => b, [])

/-- Applying a sequence of builder calls, accumulating the emitted traces. -/
def applyCalls (b : GameDataBuilder) : List BuilderCall → GameDataBuilder × List Event
  | [] => (b, [])
  | c :: rest =>
      let r := applyCall b c
      let r2 := applyCalls r.1 rest
      (r2.1, r.2 ++ r2.2)

/-- Names of logged unit-registration operations, in log order. -/
def opNames : List DispatcherOperation → List String
  | [] => []
  | .addSystem _ n _ :: rest => n :: opNames rest
  | .addSystemDesc _ n _ :: rest => n :: opNames rest
  | _ :: rest => opNames rest

/-- Payloads of logged thread-local registrations, in log order. -/
def opLocals : List DispatcherOperation → List Nat
  | [] => []
  | .addThreadLocal s :: rest => s :: opLocals rest
  | .addThreadLocalDesc s :: rest => s :: opLocals rest
  | _ :: rest => opLocals rest

/-- Does the log contain no bundle operations? -/
def bundleFree : List DispatcherOperation → Bool
  | [] => true
  | .addBundle _ :: _ => false
  | _ :: rest => bundleFree rest

/-- A bundle environment is monotonic when expansion only ever adds units:
every name registered before the expansion is still registered after it.
Real bundles only call the registration methods, so this holds of them. -/
def EnvMono (env : Bundles) : Prop :=
  ∀ bid db db', env bid db = Except.ok db' → ∀ n, n ∈ db.names → n ∈ db'.names

/-- The identity bundle environment: every bundle expands to nothing. -/
def envId : Bundles := fun _ db => Except.ok db

/-- The identity bundle environment is monotonic. -/
theorem envId_mono : EnvMono envId := by
  intro bid db db' h n hn
  simp [envId] at h
  subst h
  exact hn

/-- Replaying a concatenated log processes the first part, then feeds its
result to the second part: the log is replayed strictly in order. -/
theorem replay_append (env : Bundles) (ops1 ops2 : List DispatcherOperation)
    (db : DispatcherBuilder) :
    replay env (ops1 ++ ops2) db = (replay env ops1 db).bind (replay env ops2) := by
  induction ops1 generalizing db with
  | nil => simp [replay, Except.bind]
  | cons op rest ih =>
      simp only [List.cons_append, replay]
      cases execOp env op db with
      | error e => simp [Except.bind]
      | ok db' => simpa [Except.bind] using ih db'

/-- A `none` result of `badDep` means every dependency names a previously
registered non-empty unit. -/
theorem badDep_none {db : DispatcherBuilder} {ds : List String}
    (h : badDep db ds = none) : ∀ d ∈ ds, d ≠ "" ∧ d ∈ db.names := by
  intro d hd
  have hf := List.find?_eq_none.mp h d hd
  simpa [not_or] using hf

/-- Inversion of a successful unit registration. -/
theorem addSystemCore_ok {db db' : DispatcherBuilder} {s : Nat} {n : String}
    {ds : List String} (h : addSystemCore db s n ds = Except.ok db') :
    db' = { db with items := db.items ++ [⟨s, n, ds, db.gen⟩] } ∧
      ¬(n ≠ "" ∧ n ∈ db.names) ∧ badDep db ds = none := by
  unfold addSystemCore at h
  split at h
  · simp at h
  · rename_i hcond
    cases hbd : badDep db ds with
    | some d => simp [hbd] at h
    | none =>
        simp only [hbd] at h
        cases h
        exact ⟨rfl, hcond, rfl⟩

/-- A successful unit registration appends exactly the new name. -/
theorem addSystemCore_ok_names {db db' : DispatcherBuilder} {s : Nat} {n : String}
    {ds : List String} (h : addSystemCore db s n ds = Except.ok db') :
    db'.names = db.names ++ [n] := by
  obtain ⟨h1, -, -⟩ := addSystemCore_ok h
  subst h1
  simp [DispatcherBuilder.names]

/-- Registering a duplicate non-empty name fails with `DuplicateName`. -/
theorem addSystemCore_dup {db : DispatcherBuilder} {s : Nat} {n : String}
    {ds : List String} (hn : n ≠ "") (hm : n ∈ db.names) :
    addSystemCore db s n ds = Except.error (BuildErr.duplicateName n) := by
  unfold addSystemCore
  rw [if_pos ⟨hn, hm⟩]

/-- Inversion of a successful thread-local registration. -/
theorem execOp_addThreadLocal_inv {env : Bundles} {s : Nat} {db db' : DispatcherBuilder}
    (h : execOp env (.addThreadLocal s) db = Except.ok db') :
    db' = { db with threadLocals := db.threadLocals ++ [s] } := by
  simp only [execOp] at h
  cases h
  rfl

/-- Inversion of a successful deferred thread-local registration. -/
theorem execOp_addThreadLocalDesc_inv {env : Bundles} {s : Nat} {db db' : DispatcherBuilder}
    (h : execOp env (.addThreadLocalDesc s) db = Except.ok db') :
    db' = { db with threadLocals := db.threadLocals ++ [s] } := by
  simp only [execOp] at h
  cases h
  rfl

/-- A barrier never changes the recorded units or the thread-local list. -/
theorem execOp_addBarrier_inv {env : Bundles} {db db' : DispatcherBuilder}
    (h : execOp env .addBarrier db = Except.ok db') :
    db'.items = db.items ∧ db'.threadLocals = db.threadLocals := by
  simp only [execOp] at h
  cases h
  split <;> exact ⟨rfl, rfl⟩

/-- A successful operation replay never loses a registered name (monotonic
bundle environments). -/
theorem execOp_names_mono {env : Bundles} (hm : EnvMono env) {op : DispatcherOperation}
    {db db' : DispatcherBuilder} (h : execOp env op db = Except.ok db') :
    ∀ n ∈ db.names, n ∈ db'.names := by
  intro n hn
  cases op with
  | addSystem s nm ds =>
      rw [addSystemCore_ok_names (by simpa [execOp] using h)]
      exact List.mem_append_left _ hn
  | addSystemDesc s nm ds =>
      rw [addSystemCore_ok_names (by simpa [execOp] using h)]
      exact List.mem_append_left _ hn
  | addThreadLocal s =>
      rw [execOp_addThreadLocal_inv h]
      exact hn
  | addThreadLocalDesc s =>
      rw [execOp_addThreadLocalDesc_inv h]
      exact hn
  | addBarrier =>
      have hi := (execOp_addBarrier_inv h).1
      simpa [DispatcherBuilder.names, hi] using hn
  | addBundle bid => exact hm bid db db' h n hn

/-- A successful log replay never loses a registered name (monotonic bundle
environments). -/
theorem replay_names_mono {env : Bundles} (hm : EnvMono env)
    {ops : List DispatcherOperation} {db db' : DispatcherBuilder}
    (h : replay env ops db = Except.ok db') : ∀ n ∈ db.names, n ∈ db'.names := by
  induction ops generalizing db with
  | nil =>
      simp only [replay] at h
      cases h
      exact fun n hn => hn
  | cons op rest ih =>
      simp only [replay] at h
      cases hop : execOp env op db with
      | error e => rw [hop] at h; simp at h
      | ok db1 =>
          rw [hop] at h
          exact fun n hn => ih h n (execOp_names_mono hm hop n hn)

/-- A successful replay of a bundle-free log records the units and the
thread-local systems in registration order. -/
theorem replay_ok_order {env : Bundles} {ops : List DispatcherOperation}
    {db0 db : DispatcherBuilder} (hb : bundleFree ops = true)
    (h : replay env ops db0 = Except.ok db) :
    db.names = db0.names ++ opNames ops ∧
      db.threadLocals = db0.threadLocals ++ opLocals ops := by
  induction ops generalizing db0 with
  | nil =>
      simp only [replay] at h
      cases h
      simp [opNames, opLocals]
  | cons op rest ih =>
      simp only [replay] at h
      cases hop : execOp env op db0 with
      | error e => rw [hop] at h; simp at h
      | ok db1 =>
          rw [hop] at h
          cases op with
          | addSystem s n ds =>
              have hbf : bundleFree rest = true := by simpa [bundleFree] using hb
              obtain ⟨h1, h2⟩ := ih hbf h
              have hnm := addSystemCore_ok_names
                (show addSystemCore db0 s n ds = Except.ok db1 by simpa [execOp] using hop)
              have hit := (addSystemCore_ok
                (show addSystemCore db0 s n ds = Except.ok db1 by simpa [execOp] using hop)).1
              subst hit
              refine ⟨?_, ?_⟩
              · rw [h1, hnm]; simp [opNames]
              · rw [h2]; simp [opLocals]
          | addSystemDesc s n ds =>
              have hbf : bundleFree rest = true := by simpa [bundleFree] using hb
              obtain ⟨h1, h2⟩ := ih hbf h
              have hnm := addSystemCore_ok_names
                (show addSystemCore db0 s n ds = Except.ok db1 by simpa [execOp] using hop)
              have hit := (addSystemCore_ok
                (show addSystemCore db0 s n ds = Except.ok db1 by simpa [execOp] using hop)).1
              subst hit
              refine ⟨?_, ?_⟩
              · rw [h1, hnm]; simp [opNames]
              · rw [h2]; simp [opLocals]
          | addThreadLocal s =>
              have hbf : bundleFree rest = true := by simpa [bundleFree] using hb
              obtain ⟨h1, h2⟩ := ih hbf h
              have hit := execOp_addThreadLocal_inv hop
              subst hit
              refine ⟨?_, ?_⟩
              · rw [h1]; simp [DispatcherBuilder.names, opNames]
              · rw [h2]; simp [opLocals]
          | addThreadLocalDesc s =>
              have hbf : bundleFree rest = true := by simpa [bundleFree] using hb
              obtain ⟨h1, h2⟩ := ih hbf h
              have hit := execOp_addThreadLocalDesc_inv hop
              subst hit
              refine ⟨?_, ?_⟩
              · rw [h1]; simp [DispatcherBuilder.names, opNames]
              · rw [h2]; simp [opLocals]
          | addBarrier =>
              have hbf : bundleFree rest = true := by simpa [bundleFree] using hb
              obtain ⟨h1, h2⟩ := ih hbf h
              obtain ⟨hi, ht⟩ := execOp_addBarrier_inv hop
              refine ⟨?_, ?_⟩
              · rw [h1]; simp [DispatcherBuilder.names, hi, opNames]
              · rw [h2, ht]; simp [opLocals]
          | addBundle bid => simp [bundleFree] at hb

/-- One builder call appends exactly its operation to the log and emits no
world effects. -/
theorem applyCall_spec (b : GameDataBuilder) (c : BuilderCall) :
    (applyCall b c).1.dispatcher_operations = b.dispatcher_operations ++ [opOfCall c] ∧
      (applyCall b c).2 = [] := by
  cases c <;>
    simp [applyCall, opOfCall, GameDataBuilder.with_, GameDataBuilder.with_system_desc,
      GameDataBuilder.with_thread_local, GameDataBuilder.with_thread_local_desc,
      GameDataBuilder.with_barrier, GameDataBuilder.with_bundle]

/-- A sequence of builder calls appends exactly its operations, in call
order, and emits no world effects. -/
theorem applyCalls_spec (b : GameDataBuilder) (calls : List BuilderCall) :
    (applyCalls b calls).1.dispatcher_operations =
      b.dispatcher_operations ++ calls.map opOfCall ∧
      (applyCalls b calls).2 = [] := by
  induction calls generalizing b with
  | nil => simp [applyCalls]
  | cons c rest ih =>
      have h1 := applyCall_spec b c
      simp only [applyCalls]
      refine ⟨?_, ?_⟩
      · rw [(ih (applyCall b c).1).1, h1.1]; simp
      · rw [h1.2, (ih (applyCall b c).1).2]; simp

/-- Replaying past a successfully replayed prefix continues from its result. -/
theorem replay_append_ok {env : Bundles} {ops1 : List DispatcherOperation}
    {db db1 : DispatcherBuilder} (ops2 : List DispatcherOperation)
    (h : replay env ops1 db = Except.ok db1) :
    replay env (ops1 ++ ops2) db = replay env ops2 db1 := by
  rw [replay_append, h]
  rfl

/-- A failing prefix fails the whole replay. -/
theorem replay_append_error {env : Bundles} {ops1 : List DispatcherOperation}
    {db : DispatcherBuilder} {e : BuildErr} (ops2 : List DispatcherOperation)
    (h : replay env ops1 db = Except.error e) :
    replay env (ops1 ++ ops2) db = Except.error e := by
  rw [replay_append, h]
  rfl

/-- Mapping a constructor that is not `bindListener` contributes nothing to
the listener-binding filter. -/
theorem filter_isBind_map {α : Type} (f : α → Event) (l : List α)
    (hf : ∀ a, (f a).isBindListener = false) :
    (l.map f).filter Event.isBindListener = [] := by
  induction l with
  | nil => rfl
  | cons a l ih => simp [List.filter_cons, hf a, ih]

/-- A failing log replay is the result of the plain `build`. -/
theorem build_error_eq {env : Bundles} {b : GameDataBuilder} {e : BuildErr} (w : SpecsWorld)
    (h : replay env b.dispatcher_operations b.disp_builder = Except.error e) :
    b.build env w = Except.error e := by
  unfold GameDataBuilder.build
  rw [h]

/-- The plain `build` on a successfully replayed log: the handle holds the
compiled dispatcher and the trace reads the pool, replays the log in order
and sets up the dispatcher. -/
theorem build_ok_eq {env : Bundles} {b : GameDataBuilder} {db : DispatcherBuilder}
    (w : SpecsWorld)
    (h : replay env b.dispatcher_operations b.disp_builder = Except.ok db) :
    b.build env w =
      Except.ok (GameData.new db.toDispatcher,
        Event.readPoolResource :: b.dispatcher_operations.map Event.execLog
          ++ [Event.dispatcherSetup]) := by
  unfold GameDataBuilder.build
  rw [h]

/-- A failing log replay is the result of the legion-ecs `build`. -/
theorem build_migration_error_eq {env : Bundles} {b : GameDataBuilder} {e : BuildErr}
    (prep : PrepEnv) (w : SpecsWorld) (ms : LegionState)
    (h : replay env b.dispatcher_operations b.disp_builder = Except.error e) :
    b.build_migration env prep w ms = Except.error e := by
  unfold GameDataBuilder.build_migration
  rw [h]

/-- The legion-ecs `build` on a successfully replayed log, written out as the
full phase trace. -/
theorem build_migration_ok_eq {env : Bundles} {b : GameDataBuilder} {db : DispatcherBuilder}
    (prep : PrepEnv) (w : SpecsWorld) (ms : LegionState)
    (h : replay env b.dispatcher_operations b.disp_builder = Except.ok db) :
    b.build_migration env prep w ms =
      Except.ok
        (GameDataMigration.new db.toDispatcher
          ((b.migration_sync_builders.foldl (fun m i => prep i m)
              b.migration_dispatcher_builder).buildDispatcher)
          ms.world.entity_channel.listeners.length,
         { world := { entity_channel :=
              { listeners := ms.world.entity_channel.listeners ++ [2048] } },
           syncers := ms.syncers ++ b.migration_syncers },
         Event.readPoolResource :: b.dispatcher_operations.map Event.execLog
           ++ [Event.dispatcherSetup, Event.legionTempSetup]
           ++ b.migration_sync_builders.map Event.syncBuilderPrepare
           ++ (ms.syncers ++ b.migration_syncers).map Event.syncerSetup
           ++ (ms.syncers ++ b.migration_syncers).map
                (fun s => Event.syncerSync s SyncDirection.specsToLegion)
           ++ [Event.buildMigrationDispatcher]
           ++ (ms.syncers ++ b.migration_syncers).map
                (fun s => Event.syncerSync s SyncDirection.legionToSpecs)
           ++ [Event.bindListener 2048]) := by
  unfold GameDataBuilder.build_migration
  rw [h]
  rfl

/-- C1: in the legion-ecs (bridging) configuration, a single `build` call
performs its phases in exactly this order: replay the operation log to
compile the primary dispatcher, prepare the secondary world and run each
syncer's one-time `setup`, run every syncer once with direction
`SpecsToLegion`, compile the secondary (migration) dispatcher, run every
syncer once with direction `LegionToSpecs`, and only then return the
combined `GameData` handle. -/
theorem c1_build_migration_phase_order (env : Bundles) (prep : PrepEnv)
    (b : GameDataBuilder) (w : SpecsWorld) (ms : LegionState) (db : DispatcherBuilder)
    (h : replay env b.dispatcher_operations b.disp_builder = Except.ok db) :
    b.build_migration env prep w ms =
      Except.ok
        (GameDataMigration.new db.toDispatcher
          ((b.migration_sync_builders.foldl (fun m i => prep i m)
              b.migration_dispatcher_builder).buildDispatcher)
          ms.world.entity_channel.listeners.length,
         { world := { entity_channel :=
              { listeners := ms.world.entity_channel.listeners ++ [2048] } },
           syncers := ms.syncers ++ b.migration_syncers },
         Event.readPoolResource :: b.dispatcher_operations.map Event.execLog
           ++ [Event.dispatcherSetup, Event.legionTempSetup]
           ++ b.migration_sync_builders.map Event.syncBuilderPrepare
           ++ (ms.syncers ++ b.migration_syncers).map Event.syncerSetup
           ++ (ms.syncers ++ b.migration_syncers).map
                (fun s => Event.syncerSync s SyncDirection.specsToLegion)
           ++ [Event.buildMigrationDispatcher]
           ++ (ms.syncers ++ b.migration_syncers).map
                (fun s => Event.syncerSync s SyncDirection.legionToSpecs)
           ++ [Event.bindListener 2048]) :=
  build_migration_ok_eq prep w ms h

/-- Witness for C1 at a concrete builder with one logged system and one
registered resource syncer. -/
theorem c1_witness :
    replay envId
        ((GameDataBuilder.default.with_ 7 "a" []).migration_resource_sync 3).dispatcher_operations
        ((GameDataBuilder.default.with_ 7 "a" []).migration_resource_sync 3).disp_builder =
      Except.ok ⟨[⟨7, "a", [], 0⟩], [], 0⟩ ∧
    ((GameDataBuilder.default.with_ 7 "a" []).migration_resource_sync 3).build_migration envId
        (fun _ m => m) ⟨0⟩ ⟨⟨⟨[]⟩⟩, []⟩ =
      Except.ok
        (GameDataMigration.new (⟨[⟨7, "a", [], 0⟩], [], 0⟩ : DispatcherBuilder).toDispatcher
          LegionDispatcherBuilder.empty.buildDispatcher 0,
         ⟨⟨⟨[2048]⟩⟩, [Syncer.resource 3]⟩,
         [Event.readPoolResource, Event.execLog (DispatcherOperation.addSystem 7 "a" []),
          Event.dispatcherSetup, Event.legionTempSetup,
          Event.syncerSetup (Syncer.resource 3),
          Event.syncerSync (Syncer.resource 3) SyncDirection.specsToLegion,
          Event.buildMigrationDispatcher,
          Event.syncerSync (Syncer.resource 3) SyncDirection.legionToSpecs,
          Event.bindListener 2048]) :=
  ⟨by decide,
   c1_build_migration_phase_order envId (fun _ m => m)
     ((GameDataBuilder.default.with_ 7 "a" []).migration_resource_sync 3) ⟨0⟩ ⟨⟨⟨[]⟩⟩, []⟩
     ⟨[⟨7, "a", [], 0⟩], [], 0⟩ (by decide)⟩

/-- C2: `with(system, name, deps)` never fails at call time — it always
returns the builder with exactly one operation logged, even for duplicate
names or unknown dependencies; a duplicate non-empty name surfaces only
during the single `build` call, which returns the `DuplicateName` failure and
no handle; and any unit registration that does succeed at build time had all
of its dependencies previously registered under non-empty names. -/
theorem c2_deferred_validation :
    (∀ (b : GameDataBuilder) (s : Nat) (n : String) (ds : List String),
        b.with_ s n ds =
          { b with dispatcher_operations :=
              b.dispatcher_operations ++ [DispatcherOperation.addSystem s n ds] }) ∧
    (∀ (env : Bundles) (w : SpecsWorld) (b : GameDataBuilder)
        (pre mid post : List DispatcherOperation) (s1 s2 : Nat) (n : String)
        (ds1 ds2 : List String) (db3 : DispatcherBuilder),
        EnvMono env → n ≠ "" →
        b.dispatcher_operations =
          pre ++ DispatcherOperation.addSystem s1 n ds1 ::
            (mid ++ DispatcherOperation.addSystem s2 n ds2 :: post) →
        replay env (pre ++ DispatcherOperation.addSystem s1 n ds1 :: mid) b.disp_builder =
          Except.ok db3 →
        b.build env w = Except.error (BuildErr.duplicateName n)) ∧
    (∀ (env : Bundles) (s : Nat) (n : String) (ds : List String)
        (db db' : DispatcherBuilder),
        execOp env (DispatcherOperation.addSystem s n ds) db = Except.ok db' →
        ∀ d ∈ ds, d ≠ "" ∧ d ∈ db.names) := by
  refine ⟨fun b s n ds => rfl, ?_, ?_⟩
  · intro env w b pre mid post s1 s2 n ds1 ds2 db3 hm hn hops hrep
    have hmem : n ∈ db3.names := by
      cases hpre : replay env pre b.disp_builder with
      | error e =>
          rw [replay_append_error (DispatcherOperation.addSystem s1 n ds1 :: mid) hpre] at hrep
          simp at hrep
      | ok db1 =>
          rw [replay_append_ok (DispatcherOperation.addSystem s1 n ds1 :: mid) hpre] at hrep
          simp only [replay] at hrep
          cases h1 : execOp env (DispatcherOperation.addSystem s1 n ds1) db1 with
          | error e => rw [h1] at hrep; simp at hrep
          | ok db2 =>
              rw [h1] at hrep
              have hnm := addSystemCore_ok_names
                (show addSystemCore db1 s1 n ds1 = Except.ok db2 by simpa [execOp] using h1)
              exact replay_names_mono hm hrep n (by simp [hnm])
    have hsplit : b.dispatcher_operations =
        (pre ++ DispatcherOperation.addSystem s1 n ds1 :: mid) ++
          DispatcherOperation.addSystem s2 n ds2 :: post := by
      rw [hops]; simp
    have hfail : replay env b.dispatcher_operations b.disp_builder =
        Except.error (BuildErr.duplicateName n) := by
      rw [hsplit, replay_append_ok (DispatcherOperation.addSystem s2 n ds2 :: post) hrep]
      simp only [replay]
      rw [show execOp env (DispatcherOperation.addSystem s2 n ds2) db3 =
            Except.error (BuildErr.duplicateName n) from by
          simpa [execOp] using @addSystemCore_dup db3 s2 n ds2 hn hmem]
    simp [GameDataBuilder.build, hfail]
  · intro env s n ds db db' h d hd
    have hbd := (addSystemCore_ok (show addSystemCore db s n ds = Except.ok db' by
      simpa [execOp] using h)).2.2
    exact badDep_none hbd d hd

/-- Witness for C2: registering the name `a` twice never fails at the two
`with` calls, and the single `build` call returns the `DuplicateName`
failure. -/
theorem c2_witness :
    EnvMono envId ∧
    ((GameDataBuilder.default.with_ 0 "a" []).with_ 1 "a" []).build envId ⟨0⟩ =
      Except.error (BuildErr.duplicateName "a") :=
  ⟨envId_mono,
   c2_deferred_validation.2.1 envId ⟨0⟩ ((GameDataBuilder.default.with_ 0 "a" []).with_ 1 "a" [])
     [] [] [] 0 1 "a" [] [] ⟨[⟨0, "a", [], 0⟩], [], 0⟩ envId_mono (by decide) (by decide)
     (by decide)⟩

/-- C3 counterexample: on a concrete disposed handle, a subsequent `update`
call emits nothing at all — in particular it does not fail as
`PostDisposeUse`, contrary to the claim; the code silently does nothing. -/
theorem c3_counterexample_update_after_dispose :
    ((((GameData.new ⟨[], [5]⟩).dispose).1.update)).2 = [] ∧
      Event.postDisposeUse ∉ ((((GameData.new ⟨[], [5]⟩).dispose).1.update)).2 := by
  decide

/-- C3 (amended): for every `GameData` handle on which `dispose` has been
called, any subsequent `update` call silently does nothing — it performs no
dispatch, emits no event and returns the handle unchanged, rather than
failing as `PostDisposeUse`. -/
theorem c3_update_after_dispose_noop (g : GameData) :
    ((g.dispose).1).update = ((g.dispose).1, []) := by
  cases hd : g.dispatcher <;> simp [GameData.dispose, GameData.update, hd]

/-- C4: for every non-disposed handle (plain configuration), `update`
dispatches the compiled parallel graph to the worker pool, joins the pool,
and then runs the thread-confined units on the calling thread; moreover the
dispatcher compiled from a bundle-free log holds the thread-confined units
strictly in registration order. -/
theorem c4_update_dispatch_order :
    (∀ (g : GameData) (d : Dispatcher), g.dispatcher = some d →
        g.update =
          (g, Event.dispatchPool d.parallel :: Event.poolWait ::
            d.threadLocals.map Event.runLocal)) ∧
    (∀ (env : Bundles) (ops : List DispatcherOperation) (db : DispatcherBuilder),
        bundleFree ops = true →
        replay env ops DispatcherBuilder.empty = Except.ok db →
        db.toDispatcher.threadLocals = opLocals ops) := by
  constructor
  · intro g d hd
    simp [GameData.update, hd, Dispatcher.dispatch]
  · intro env ops db hb h
    have h2 := (replay_ok_order hb h).2
    simpa [DispatcherBuilder.toDispatcher, DispatcherBuilder.empty] using h2

/-- Witness for C4 at a concrete handle with one parallel unit and two
thread-local units. -/
theorem c4_witness :
    (GameData.new ⟨[⟨1, "a", [], 0⟩], [4, 9]⟩).update =
        (GameData.new ⟨[⟨1, "a", [], 0⟩], [4, 9]⟩,
          [Event.dispatchPool [⟨1, "a", [], 0⟩], Event.poolWait,
            Event.runLocal 4, Event.runLocal 9]) ∧
    (⟨[], [4, 9], 0⟩ : DispatcherBuilder).toDispatcher.threadLocals =
        opLocals [DispatcherOperation.addThreadLocal 4,
          DispatcherOperation.addThreadLocalDesc 9] :=
  ⟨c4_update_dispatch_order.1 (GameData.new ⟨[⟨1, "a", [], 0⟩], [4, 9]⟩)
      ⟨[⟨1, "a", [], 0⟩], [4, 9]⟩ rfl,
   c4_update_dispatch_order.2 envId
     [DispatcherOperation.addThreadLocal 4, DispatcherOperation.addThreadLocalDesc 9]
     ⟨[], [4, 9], 0⟩ (by decide) (by decide)⟩

/-- C5: the migration-mode builder calls each record their registration and
return the builder for chaining — except `migration_component_sync_with`,
which records the syncer but returns `()`, dropping the updated builder, so
no chaining is possible there (the code bug behind this claim). -/
theorem c5_migration_builder_chaining :
    (∀ (b : GameDataBuilder) (t : Nat),
        b.migration_resource_sync t =
          { b with migration_syncers := b.migration_syncers ++ [Syncer.resource t] }) ∧
    (∀ (b : GameDataBuilder) (t : Nat),
        b.migration_component_sync t =
          { b with migration_syncers := b.migration_syncers ++ [Syncer.component t] }) ∧
    (∀ (b : GameDataBuilder) (t : Nat),
        b.migration_sync_bundle t =
          { b with migration_sync_builders := b.migration_sync_builders ++ [t] }) ∧
    (∀ (b : GameDataBuilder) (t : Nat),
        b.migration_with_thread_local t =
          { b with migration_dispatcher_builder :=
              { b.migration_dispatcher_builder with
                  threadLocals := b.migration_dispatcher_builder.threadLocals ++ [t] } }) ∧
    (∀ (b : GameDataBuilder) (st t : Nat),
        b.migration_with_system st t =
          { b with migration_dispatcher_builder :=
              { b.migration_dispatcher_builder with
                  systems := b.migration_dispatcher_builder.systems ++ [(st, t)] } }) ∧
    (∀ (b : GameDataBuilder) (t : Nat),
        b.migration_with_bundle t =
          { b with migration_dispatcher_builder :=
              { b.migration_dispatcher_builder with
                  bundles := b.migration_dispatcher_builder.bundles ++ [t] } }) ∧
    (∀ (b : GameDataBuilder) (f : Nat), b.migration_component_sync_with f = ()) :=
  ⟨fun _ _ => rfl, fun _ _ => rfl, fun _ _ => rfl, fun _ _ => rfl, fun _ _ _ => rfl,
   fun _ _ => rfl, fun _ _ => rfl⟩

/-- C6: `with_bundle` records exactly one bundle operation in the deferred
log and returns the builder wrapped in `Ok`; if the bundle's own expansion
logic fails when the log is replayed, that failure is the result of the
single `build` call, which returns no handle. -/
theorem c6_with_bundle_deferred_failure :
    (∀ (b : GameDataBuilder) (bid : Nat),
        b.with_bundle bid =
          Except.ok { b with dispatcher_operations :=
            b.dispatcher_operations ++ [DispatcherOperation.addBundle bid] }) ∧
    (∀ (env : Bundles) (w : SpecsWorld) (b : GameDataBuilder)
        (pre post : List DispatcherOperation) (bid : Nat) (db : DispatcherBuilder)
        (e : BuildErr),
        b.dispatcher_operations = pre ++ DispatcherOperation.addBundle bid :: post →
        replay env pre b.disp_builder = Except.ok db →
        env bid db = Except.error e →
        b.build env w = Except.error e) := by
  constructor
  · intro b bid
    rfl
  · intro env w b pre post bid db e hops hpre henv
    have hfail : replay env b.dispatcher_operations b.disp_builder = Except.error e := by
      rw [hops, replay_append_ok (DispatcherOperation.addBundle bid :: post) hpre]
      simp only [replay]
      rw [show execOp env (DispatcherOperation.addBundle bid) db = Except.error e from henv]
    simp [GameDataBuilder.build, hfail]

/-- Witness for C6: a bundle whose expansion fails with `BundleExpansionFailed`
code 3 makes the single `build` call return exactly that failure. -/
theorem c6_witness :
    GameDataBuilder.default.with_bundle 5 =
      Except.ok { GameDataBuilder.default with
        dispatcher_operations := [DispatcherOperation.addBundle 5] } ∧
    ({ GameDataBuilder.default with
        dispatcher_operations := [DispatcherOperation.addBundle 5] } : GameDataBuilder).build
        (fun _ _ => Except.error (BuildErr.bundleFailed 3)) ⟨0⟩ =
      Except.error (BuildErr.bundleFailed 3) :=
  ⟨c6_with_bundle_deferred_failure.1 GameDataBuilder.default 5,
   c6_with_bundle_deferred_failure.2 (fun _ _ => Except.error (BuildErr.bundleFailed 3)) ⟨0⟩
     { GameDataBuilder.default with dispatcher_operations := [DispatcherOperation.addBundle 5] }
     [] [] 5 DispatcherBuilder.empty (BuildErr.bundleFailed 3) (by decide) (by decide) rfl⟩

/-- C7: a first `dispose` call takes the dispatcher out of the handle and
releases it exactly once; a second `dispose` call finds no dispatcher and is
a harmless no-op — no release happens again and the handle is unchanged. -/
theorem c7_dispose_once :
    (∀ (d : Dispatcher),
        (GameData.new d).dispose = (⟨none⟩, [Event.disposeDispatcher])) ∧
    (∀ (g : GameData), ((g.dispose).1).dispose = ((g.dispose).1, [])) := by
  constructor
  · intro d
    rfl
  · intro g
    cases hd : g.dispatcher <;> simp [GameData.dispose, hd]

/-- C8: the deferred operation log records the builder calls in exactly call
order; replaying a concatenated log processes the first part before the
second (replay is strictly in log order); and a successful replay of a
bundle-free log registers the units in exactly log order, so registration
order is the only source of implicit priority. -/
theorem c8_registration_order :
    (∀ (b0 : GameDataBuilder) (calls : List BuilderCall),
        (applyCalls b0 calls).1.dispatcher_operations =
          b0.dispatcher_operations ++ calls.map opOfCall) ∧
    (∀ (env : Bundles) (ops1 ops2 : List DispatcherOperation) (db : DispatcherBuilder),
        replay env (ops1 ++ ops2) db = (replay env ops1 db).bind (replay env ops2)) ∧
    (∀ (env : Bundles) (ops : List DispatcherOperation) (db0 db : DispatcherBuilder),
        bundleFree ops = true → replay env ops db0 = Except.ok db →
        db.names = db0.names ++ opNames ops) := by
  refine ⟨fun b0 calls => (applyCalls_spec b0 calls).1, replay_append, ?_⟩
  intro env ops db0 db hb h
  exact (replay_ok_order hb h).1

/-- Witness for C8 at a concrete call sequence with a barrier. -/
theorem c8_witness :
    (applyCalls GameDataBuilder.default
        [BuilderCall.with_ 0 "a" [], BuilderCall.with_barrier,
          BuilderCall.with_ 1 "b" ["a"]]).1.dispatcher_operations =
      [DispatcherOperation.addSystem 0 "a" [], DispatcherOperation.addBarrier,
        DispatcherOperation.addSystem 1 "b" ["a"]] ∧
    (⟨[⟨0, "a", [], 0⟩, ⟨1, "b", ["a"], 1⟩], [], 1⟩ : DispatcherBuilder).names =
      DispatcherBuilder.empty.names ++
        opNames [DispatcherOperation.addSystem 0 "a" [], DispatcherOperation.addBarrier,
          DispatcherOperation.addSystem 1 "b" ["a"]] :=
  ⟨c8_registration_order.1 GameDataBuilder.default
     [BuilderCall.with_ 0 "a" [], BuilderCall.with_barrier, BuilderCall.with_ 1 "b" ["a"]],
   c8_registration_order.2.2 envId
     [DispatcherOperation.addSystem 0 "a" [], DispatcherOperation.addBarrier,
       DispatcherOperation.addSystem 1 "b" ["a"]]
     DispatcherBuilder.empty ⟨[⟨0, "a", [], 0⟩, ⟨1, "b", ["a"], 1⟩], [], 1⟩
     (by decide) (by decide)⟩

/-- C9: in bridging mode, a successful `build` binds exactly one listener on
the secondary world's entity-lifecycle channel, with buffer capacity exactly
2048, and stores the resulting listener id in the returned handle. -/
theorem c9_bind_listener_once (env : Bundles) (prep : PrepEnv) (b : GameDataBuilder)
    (w : SpecsWorld) (ms : LegionState) (g : GameDataMigration) (ms' : LegionState)
    (tr : List Event)
    (h : b.build_migration env prep w ms = Except.ok (g, ms', tr)) :
    ms'.world.entity_channel.listeners = ms.world.entity_channel.listeners ++ [2048] ∧
      g.migration_sync_entities_id = ms.world.entity_channel.listeners.length ∧
      tr.filter Event.isBindListener = [Event.bindListener 2048] := by
  cases hrep : replay env b.dispatcher_operations b.disp_builder with
  | error e =>
      rw [build_migration_error_eq prep w ms hrep] at h
      simp at h
  | ok db =>
      rw [build_migration_ok_eq prep w ms hrep] at h
      simp only [Except.ok.injEq, Prod.mk.injEq] at h
      obtain ⟨hg, hms, htr⟩ := h
      subst hg
      subst hms
      subst htr
      refine ⟨rfl, rfl, ?_⟩
      simp [List.filter_append, List.filter_cons, Event.isBindListener,
        filter_isBind_map]

/-- Witness for C9 at a concrete bridging build with one logged system, one
syncer and one pre-bound listener of capacity 16 on the secondary world. -/
theorem c9_witness :
    (((GameDataBuilder.default.with_ 7 "a" []).migration_component_sync 2).build_migration
        envId (fun _ m => m) ⟨1⟩ ⟨⟨⟨[16]⟩⟩, []⟩ =
      Except.ok
        (GameDataMigration.new (⟨[⟨7, "a", [], 0⟩], [], 0⟩ : DispatcherBuilder).toDispatcher
          LegionDispatcherBuilder.empty.buildDispatcher 1,
         ⟨⟨⟨[16, 2048]⟩⟩, [Syncer.component 2]⟩,
         [Event.readPoolResource, Event.execLog (DispatcherOperation.addSystem 7 "a" []),
          Event.dispatcherSetup, Event.legionTempSetup,
          Event.syncerSetup (Syncer.component 2),
          Event.syncerSync (Syncer.component 2) SyncDirection.specsToLegion,
          Event.buildMigrationDispatcher,
          Event.syncerSync (Syncer.component 2) SyncDirection.legionToSpecs,
          Event.bindListener 2048])) ∧
    ([16, 2048] : List Nat) = [16] ++ [2048] ∧
    (1 : Nat) = ([16] : List Nat).length ∧
    ([Event.readPoolResource, Event.execLog (DispatcherOperation.addSystem 7 "a" []),
      Event.dispatcherSetup, Event.legionTempSetup,
      Event.syncerSetup (Syncer.component 2),
      Event.syncerSync (Syncer.component 2) SyncDirection.specsToLegion,
      Event.buildMigrationDispatcher,
      Event.syncerSync (Syncer.component 2) SyncDirection.legionToSpecs,
      Event.bindListener 2048]).filter Event.isBindListener = [Event.bindListener 2048] := by
  have h := c9_bind_listener_once envId (fun _ m => m)
    ((GameDataBuilder.default.with_ 7 "a" []).migration_component_sync 2) ⟨1⟩
    ⟨⟨⟨[16]⟩⟩, []⟩
    (GameDataMigration.new (⟨[⟨7, "a", [], 0⟩], [], 0⟩ : DispatcherBuilder).toDispatcher
      LegionDispatcherBuilder.empty.buildDispatcher 1)
    ⟨⟨⟨[16, 2048]⟩⟩, [Syncer.component 2]⟩
    [Event.readPoolResource, Event.execLog (DispatcherOperation.addSystem 7 "a" []),
      Event.dispatcherSetup, Event.legionTempSetup,
      Event.syncerSetup (Syncer.component 2),
      Event.syncerSync (Syncer.component 2) SyncDirection.specsToLegion,
      Event.buildMigrationDispatcher,
      Event.syncerSync (Syncer.component 2) SyncDirection.legionToSpecs,
      Event.bindListener 2048] (by decide)
  exact ⟨by decide, h.1, h.2.1, h.2.2⟩

/-- C10: every builder registration call appends exactly one operation to the
deferred log, leaves all previously logged operations unchanged, and emits no
world effect at all; the world is first touched during `build`, whose trace
begins with the thread-pool resource read. -/
theorem c10_registration_frame :
    (∀ (b0 : GameDataBuilder) (calls : List BuilderCall),
        (applyCalls b0 calls).2 = ([] : List Event) ∧
        (applyCalls b0 calls).1.dispatcher_operations =
          b0.dispatcher_operations ++ calls.map opOfCall) ∧
    (∀ (env : Bundles) (w : SpecsWorld) (b : GameDataBuilder) (g : GameData)
        (tr : List Event),
        b.build env w = Except.ok (g, tr) → tr.head? = some Event.readPoolResource) := by
  constructor
  · intro b0 calls
    exact ⟨(applyCalls_spec b0 calls).2, (applyCalls_spec b0 calls).1⟩
  · intro env w b g tr h
    cases hrep : replay env b.dispatcher_operations b.disp_builder with
    | error e =>
        rw [build_error_eq w hrep] at h
        simp at h
    | ok db =>
        rw [build_ok_eq w hrep] at h
        simp only [Except.ok.injEq, Prod.mk.injEq] at h
        rw [← h.2]
        rfl

/-- Witness for C10 at a concrete call sequence covering every registration
method, and a concrete `build`. -/
theorem c10_witness :
    ((applyCalls GameDataBuilder.default
        [BuilderCall.with_ 0 "a" [], BuilderCall.with_system_desc 1 "b" ["a"],
          BuilderCall.with_thread_local 2, BuilderCall.with_thread_local_desc 3,
          BuilderCall.with_barrier, BuilderCall.with_bundle 4]).2 = ([] : List Event)) ∧
    ([Event.readPoolResource, Event.dispatcherSetup] : List Event).head? =
      some Event.readPoolResource :=
  ⟨(c10_registration_frame.1 GameDataBuilder.default
      [BuilderCall.with_ 0 "a" [], BuilderCall.with_system_desc 1 "b" ["a"],
        BuilderCall.with_thread_local 2, BuilderCall.with_thread_local_desc 3,
        BuilderCall.with_barrier, BuilderCall.with_bundle 4]).1,
   c10_registration_frame.2 envId ⟨0⟩ GameDataBuilder.default
     (GameData.new DispatcherBuilder.empty.toDispatcher)
     [Event.readPoolResource, Event.dispatcherSetup] (by decide)⟩

end Amethyst
